import Mathlib

/-!
Shallow embedding of `src/simple_dao/contract/src/lib.rs` (a NEAR smart
contract, the Simple-DAO governance engine) and verification of its
specification claims.

Modelling conventions:

* `AccountId` is `String`, `Balance` (`u128`) and `Duration`/timestamps
  (`u64`) are `Nat`; the claims under study never depend on wrap-around,
  so no modular reduction is applied.
* `UnorderedSet<Council>` and `Vector<Proposal>` are Lean lists;
  `UnorderedMap<Council, Vote>` is an association list in insertion order.
* `env::predecessor_account_id()`, `env::attached_deposit()` and
  `env::block_timestamp()` are explicit parameters of each operation.
* A Rust `assert!` / `env::panic` / arithmetic panic aborts the NEAR
  function call; the runtime then discards every state write of the call
  (receipts of a failed call are not committed, and any promise created
  by it is not executed).  Operations therefore return
  `Except DaoError (state, effects)`: an `Except.error` models the panic,
  and carries no state precisely because no partial state survives one.
* `Promise::new(a).transfer(n)` is recorded as a `Transfer a n` effect.
* `Vector::get` / `UnorderedSet::iter` hand out *deserialized copies*:
  mutating the copy changes storage only if it is written back
  (`Vector::replace` / re-inserting into the set).  The embedding keeps
  this distinction faithfully; it is the source of several findings below.
-/

abbrev AccountId := String

/-- `enum Vote { Yes, No }` (lib.rs:37). -/
inductive Vote where
  | Yes
  | No
deriving DecidableEq, Repr

/-- `enum ProposalStatus { Vote, Success, Fail }` (lib.rs:45). -/
inductive ProposalStatus where
  | Vote
  | Success
  | Fail
deriving DecidableEq, Repr

/-- `ProposalStatus::is_finalized` (lib.rs:52): `self != &ProposalStatus::Vote`. -/
def ProposalStatus.is_finalized (s : ProposalStatus) : Bool :=
  s != ProposalStatus.Vote

/-- `enum ProposalType` (lib.rs:60); `WrappedBalance` amounts become `Nat`. -/
inductive ProposalType where
  | NewCouncil (amount : Nat)
  | DeleteCouncil
  | Payout (amount : Nat)
deriving DecidableEq, Repr

/-- `struct Council` (lib.rs:68). -/
structure Council where
  account : AccountId
  weight : Nat
  locked_tokens : Nat
deriving DecidableEq, Repr

/-- `struct Proposal` (lib.rs:76).  `votes` is the proposal's
`UnorderedMap<Council, Vote>` as an association list. -/
structure Proposal where
  status : ProposalStatus
  proposer : AccountId
  receiver : AccountId
  description : String
  kind : ProposalType
  vote_period_end : Nat
  votes : List (Council × Vote)
deriving DecidableEq, Repr

/-- `const CONSENSUS_PERCENTAGE: u128 = 50` (lib.rs:33). -/
def CONSENSUS_PERCENTAGE : Nat := 50

/-- `Proposal::get_amount` (lib.rs:87). -/
def Proposal.get_amount (p : Proposal) : Option Nat :=
  match p.kind with
  | ProposalType.Payout amount => some amount
  | _ => none

/-- The `percent` sum inside `Proposal::vote_status` (lib.rs:97-105):
the weights of the `Yes` ballots; `No` ballots contribute `zero`. -/
def Proposal.yes_weight (p : Proposal) : Nat :=
  (p.votes.map (fun kv =>
    match kv.2 with
    | Vote.Yes => kv.1.weight
    | Vote.No => 0)).sum

/-- `Proposal::vote_status` (lib.rs:94-114); `now` is `env::block_timestamp()`. -/
def Proposal.vote_status (p : Proposal) (now : Nat) : ProposalStatus :=
  if p.yes_weight ≥ CONSENSUS_PERCENTAGE then
    ProposalStatus.Success
  else if p.yes_weight < CONSENSUS_PERCENTAGE ∧ now > p.vote_period_end then
    ProposalStatus.Fail
  else
    ProposalStatus.Vote

/-- A `Promise::new(account).transfer(amount)` effect. -/
structure Transfer where
  account : AccountId
  amount : Nat
deriving DecidableEq, Repr

/-- The panics of the contract (`assert!` / `env::panic` / `unwrap` /
`expect` / arithmetic faults), one constructor per message or fault site. -/
inductive DaoError where
  /-- `assert!(!env::state_exists(), "DAO contract is already initialized")` -/
  | alreadyInitialized
  /-- `assert!(env::attached_deposit() >= self.bond, "Not enough deposit")` -/
  | insufficientBond
  /-- `assert!(councils.len() > 0, "Only council can vote")` -/
  | notCouncilMember
  /-- `.expect("No proposal with such id")` -/
  | noSuchProposal
  /-- `"Proposal already finalized"` (the `assert_eq!` in `vote` and the
  `assert!` in `finalized`) -/
  | alreadyFinalized
  /-- `assert!(already_votes.len() == 0, "Already voted")` -/
  | duplicateVote
  /-- `env::panic(b"Voting period has not expired and no majority vote yet")` -/
  | notReady
  /-- `councils.get(0).clone().unwrap()` on an empty match in the
  `DeleteCouncil` branch of `finalized` -/
  | noMatchingCouncil
  /-- `u128` division by zero in `recompute_percentage` -/
  | divisionByZero
deriving DecidableEq, Repr

/-- `struct DAO` (lib.rs:127). -/
structure DAO where
  purpose : String
  bond : Nat
  vote_period : Nat
  grace_period : Nat
  council : List Council
  proposals : List Proposal
deriving DecidableEq, Repr

/-- `UnorderedSet::insert`: a no-op when an equal element is already
present (equality of the full serialized struct), otherwise adds it. -/
def insertSet (l : List Council) (c : Council) : List Council :=
  if c ∈ l then l else l ++ [c]

/-- `UnorderedMap::insert`: overwrites the value when the key is present,
otherwise appends the pair. -/
def mapInsert (l : List (Council × Vote)) (k : Council) (v : Vote) :
    List (Council × Vote) :=
  if (l.map Prod.fst).contains k then
    l.map (fun kv => if kv.1 = k then (k, v) else kv)
  else
    l ++ [(k, v)]

/-- `DAO::new` (lib.rs:146-172).  `state_exists` is `env::state_exists()`,
`predecessor` is `env::predecessor_account_id()`, `attached_deposit` is
`env::attached_deposit()`.  The constructor inserts exactly one council
member, the caller, with `weight = zero` and
`locked_tokens = attached_deposit`. -/
def DAO.new (purpose : String) (bond : Nat) (vote_period : Nat)
    (grace_period : Nat) (predecessor : AccountId) (attached_deposit : Nat)
    (state_exists : Bool) : Except DaoError DAO :=
  if state_exists then
    Except.error DaoError.alreadyInitialized
  else
    Except.ok
      { purpose := purpose
        bond := bond
        vote_period := vote_period
        grace_period := grace_period
        council := insertSet []
          { account := predecessor, weight := 0,
            locked_tokens := attached_deposit }
        proposals := [] }

/-- `DAO::add_proposal` (lib.rs:175-193).  Returns the pushed proposal's
index, `self.proposals.len() - 1`. -/
def DAO.add_proposal (d : DAO) (target : AccountId) (description : String)
    (kind : ProposalType) (predecessor : AccountId) (attached_deposit : Nat)
    (now : Nat) : Except DaoError (DAO × Nat) :=
  if attached_deposit ≥ d.bond then
    let p : Proposal :=
      { status := ProposalStatus.Vote
        proposer := predecessor
        receiver := target
        description := description
        kind := kind
        vote_period_end := now + d.vote_period
        votes := [] }
    let proposals1 := d.proposals ++ [p]
    Except.ok ({ d with proposals := proposals1 }, proposals1.length - 1)
  else
    Except.error DaoError.insufficientBond

/-- `DAO::recompute_percentage` (lib.rs:328-339).  The source computes
`sum` and then runs `for mut item in self.council.iter()
{ item.weight = item.locked_tokens / sum; }`.  `UnorderedSet::iter`
yields deserialized copies, so the assignment mutates a loop-local
temporary and the set in storage is never written back: the stored
weights are unchanged when the function returns.  The only observable
behaviour of the loop is the `u128` division panic when the council is
non-empty and `sum == 0`. -/
def DAO.recompute_percentage (d : DAO) : Except DaoError DAO :=
  let sum := (d.council.map Council.locked_tokens).sum
  if d.council ≠ [] ∧ sum = 0 then
    Except.error DaoError.divisionByZero
  else
    Except.ok d

/-- The per-member values `item.locked_tokens / sum` that the loop body of
`recompute_percentage` computes (and then discards, see above); `Nat`
division coincides with Rust `u128` division away from the zero divisor. -/
def DAO.recomputed_weights (d : DAO) : List Council :=
  let sum := (d.council.map Council.locked_tokens).sum
  d.council.map (fun item => { item with weight := item.locked_tokens / sum })

/-- `DAO::finalized` (lib.rs:263-326).  Loads a copy of the proposal,
rejects an already-terminal *stored* status, recomputes the status with
the tally, and performs the side effects of the computed status.  The
mutation `proposal.status = proposal.vote_status()` happens on the local
copy only: the function contains no `self.proposals.replace`, so the
stored proposal is left untouched.  Returned effects are the transfers
in issue order. -/
def DAO.finalized (d : DAO) (id : Nat) (now : Nat) :
    Except DaoError (DAO × List Transfer) :=
  match d.proposals[id]? with
  | none => Except.error DaoError.noSuchProposal
  | some proposal =>
    if proposal.status.is_finalized then
      Except.error DaoError.alreadyFinalized
    else
      match proposal.vote_status now with
      | ProposalStatus.Success =>
        let target := proposal.receiver
        let refund : Transfer := { account := proposal.proposer, amount := d.bond }
        match proposal.kind with
        | ProposalType.NewCouncil amount =>
          let council : Council :=
            { account := target, weight := 10, locked_tokens := amount }
          let d1 := { d with council := insertSet d.council council }
          match d1.recompute_percentage with
          | Except.error e => Except.error e
          | Except.ok d2 => Except.ok (d2, [refund])
        | ProposalType.DeleteCouncil =>
          match d.council.filter (fun item => item.account == target) with
          | [] => Except.error DaoError.noMatchingCouncil
          | council :: _ =>
            let payback : Transfer :=
              { account := council.account, amount := council.locked_tokens }
            let d1 := { d with council := d.council.erase council }
            match d1.recompute_percentage with
            | Except.error e => Except.error e
            | Except.ok d2 => Except.ok (d2, [refund, payback])
        | ProposalType.Payout amount =>
          Except.ok (d, [refund, { account := target, amount := amount }])
      | ProposalStatus.Fail =>
        Except.ok (d, [{ account := proposal.proposer, amount := d.bond }])
      | ProposalStatus.Vote =>
        Except.error DaoError.notReady

/-- `DAO::vote` (lib.rs:211-261).  `predecessor` is the caller.  When the
deadline has passed it delegates to `finalized` without recording the
ballot; otherwise it records the ballot, stores the re-evaluated status
via `proposals.replace`, and, when that status is terminal, delegates to
`finalized` on the updated state.  An error from the delegated call
propagates: the panic aborts the whole `vote` transaction. -/
def DAO.vote (d : DAO) (id : Nat) (v : Vote) (predecessor : AccountId)
    (now : Nat) : Except DaoError (DAO × List Transfer) :=
  match d.council.filter (fun item => item.account == predecessor) with
  | [] => Except.error DaoError.notCouncilMember
  | council :: _ =>
    match d.proposals[id]? with
    | none => Except.error DaoError.noSuchProposal
    | some proposal =>
      if proposal.status = ProposalStatus.Vote then
        if proposal.vote_period_end < now then
          d.finalized id now
        else
          if ((proposal.votes.map Prod.fst).filter
              (fun k => k.account == predecessor)).length = 0 then
            let proposal1 := { proposal with
              votes := mapInsert proposal.votes council v }
            let post_status := proposal1.vote_status now
            let proposal2 := { proposal1 with status := post_status }
            let d1 := { d with proposals := d.proposals.set id proposal2 }
            if post_status.is_finalized then
              d1.finalized id now
            else
              Except.ok (d1, [])
          else
            Except.error DaoError.duplicateVote
      else
        Except.error DaoError.alreadyFinalized

/-- The state visible after a call: the new state on success; on a panic
the NEAR runtime commits none of the call's writes, so the pre-call
state. -/
def postState {α : Type} (d : DAO) (r : Except DaoError (DAO × α)) : DAO :=
  match r with
  | Except.ok (d1, _) => d1
  | Except.error _ => d

/-- Total weight held in a council registry (used to render the claimed
"50% of total weight" threshold). -/
def councilTotalWeight (l : List Council) : Nat :=
  (l.map Council.weight).sum

/-! ### C1: `finalized` does not persist the terminal status -/

/-- A DAO with bond 7 and one open proposal whose deadline (100) has
passed at `now = 101`: the tally reports the terminal status `Fail`. -/
def dC1 : DAO :=
  { purpose := "dao", bond := 7, vote_period := 100, grace_period := 0,
    council := [{ account := "alice", weight := 60, locked_tokens := 60 }],
    proposals := [{ status := ProposalStatus.Vote, proposer := "alice",
                    receiver := "bob", description := "", kind := ProposalType.Payout 5,
                    vote_period_end := 100, votes := [] }] }

/-- C1: the claim fails on the code.  At `dC1`, `finalized` succeeds — the
tally is terminal (`Fail`), the bond refund is issued — but the state it
returns is `dC1` itself: the stored status of proposal 0 is still `Vote`,
not the terminal status, because `finalized` never calls
`proposals.replace`. -/
theorem c1_finalize_does_not_persist_status :
    DAO.finalized dC1 0 101 =
      Except.ok (dC1, [{ account := "alice", amount := 7 }]) ∧
    dC1.proposals[0]?.map (fun p => p.vote_status 101) =
      some ProposalStatus.Fail ∧
    dC1.proposals[0]?.map Proposal.status = some ProposalStatus.Vote := by
  refine ⟨rfl, rfl, rfl⟩

/-! ### C2: double `finalize` re-executes side effects -/

/-- Same scenario as `dC1`, kept separate so each claim owns its input. -/
def dC2 : DAO :=
  { purpose := "dao", bond := 7, vote_period := 100, grace_period := 0,
    council := [{ account := "alice", weight := 60, locked_tokens := 60 }],
    proposals := [{ status := ProposalStatus.Vote, proposer := "alice",
                    receiver := "bob", description := "", kind := ProposalType.Payout 5,
                    vote_period_end := 100, votes := [] }] }

/-- C2: the exactly-once contract fails on the code.  Running `finalized`
twice in sequence on `dC2` at `now = 101` succeeds both times and issues
the bond refund both times — the combined effect list holds two refunds —
because the first call never stored the terminal status. -/
theorem c2_double_finalize_double_refund :
    (DAO.finalized dC2 0 101).bind
        (fun r => (DAO.finalized r.1 0 101).map (fun r2 => r.2 ++ r2.2)) =
      Except.ok [{ account := "alice", amount := 7 },
                 { account := "alice", amount := 7 }] := by
  rfl

/-! ### C3: a majority ballot makes the delegated `finalize` panic -/

/-- The spec's happy-path scenario: council Alice (weight 60) and Bob
(weight 40), an open `Payout {amount := 5}` proposal by Carol with
deadline 1000, nobody has voted yet, and `now = 0`. -/
def dC3 : DAO :=
  { purpose := "dao", bond := 7, vote_period := 1000, grace_period := 0,
    council := [{ account := "alice", weight := 60, locked_tokens := 60 },
                { account := "bob", weight := 40, locked_tokens := 40 }],
    proposals := [{ status := ProposalStatus.Vote, proposer := "carol",
                    receiver := "dave", description := "", kind := ProposalType.Payout 5,
                    vote_period_end := 1000, votes := [] }] }

/-- C3: the claim fails on the code.  Alice's `Yes` ballot takes the tally
to 60 ≥ 50, `vote` stores the `Success` status and delegates to
`finalized` — which immediately trips its own
`assert!(!proposal.status.is_finalized())` guard on the status just
stored.  The whole call panics with "Proposal already finalized": no
bond refund, no payout, and (the panic aborting the transaction) not
even the ballot survives. -/
theorem c3_majority_vote_panics :
    DAO.vote dC3 0 Vote.Yes "alice" 0 =
      Except.error DaoError.alreadyFinalized := by
  rfl

/-! ### C4: the consensus threshold -/

/-- Rendered from the claim's words, for comparison with the source's
`Proposal.vote_status`: "returns Success iff that sum is at least the
consensus threshold of 50% of total weight" — i.e. the yes-weight is
compared against half the registry's total weight
(`2 * yes ≥ total ↔ yes ≥ total / 2` over the rationals), rather than
against the raw constant 50. -/
def vote_status_claimed (p : Proposal) (registry : List Council) (now : Nat) :
    ProposalStatus :=
  if 2 * p.yes_weight ≥ councilTotalWeight registry then
    ProposalStatus.Success
  else if now > p.vote_period_end then
    ProposalStatus.Fail
  else
    ProposalStatus.Vote

/-- Registry for the C4 counterexample: one member holding all the weight,
namely 40. -/
def regC4 : List Council :=
  [{ account := "alice", weight := 40, locked_tokens := 40 }]

/-- The C4 proposal: Alice (weight 40) voted `Yes`; deadline 1000. -/
def pC4 : Proposal :=
  { status := ProposalStatus.Vote, proposer := "carol", receiver := "dave",
    description := "", kind := ProposalType.Payout 5, vote_period_end := 1000,
    votes := [({ account := "alice", weight := 40, locked_tokens := 40 }, Vote.Yes)] }

/-- C4 counterexample: at `now = 0` the yes-weight 40 is 100% ≥ 50% of the
registry's total weight (40), so the claim's reading demands `Success`;
the source compares 40 against the raw constant 50 and returns `Vote`. -/
theorem c4_counterexample :
    vote_status_claimed pC4 regC4 0 = ProposalStatus.Success ∧
    Proposal.vote_status pC4 0 = ProposalStatus.Vote := by
  refine ⟨rfl, rfl⟩

/-- C4 amended: `vote_status` sums the weights of exactly the `Yes`
ballots (`yes_weight`; `No` ballots and non-voters contribute 0) and
returns `Success` iff that sum reaches the fixed constant
`CONSENSUS_PERCENTAGE = 50` — a raw percentage constant, not 50% of the
registry's total weight — otherwise `Fail` iff `now` is strictly past
the deadline, and otherwise `Vote`. -/
theorem c4_threshold_is_raw_constant (p : Proposal) (now : Nat) :
    (p.vote_status now = ProposalStatus.Success ↔
      CONSENSUS_PERCENTAGE ≤ p.yes_weight) ∧
    (p.vote_status now = ProposalStatus.Fail ↔
      p.yes_weight < CONSENSUS_PERCENTAGE ∧ p.vote_period_end < now) ∧
    (p.vote_status now = ProposalStatus.Vote ↔
      p.yes_weight < CONSENSUS_PERCENTAGE ∧ now ≤ p.vote_period_end) := by
  unfold Proposal.vote_status
  refine ⟨?_, ?_, ?_⟩ <;> split_ifs with h1 h2 <;> simp_all

/-! ### C5: `recompute_percentage` and the weight-sum invariant -/

/-- Registry state for C5: two members, equal locked stake 1 each, stale
stored weights 7 and 3. -/
def dC5 : DAO :=
  { purpose := "dao", bond := 7, vote_period := 100, grace_period := 0,
    council := [{ account := "alice", weight := 7, locked_tokens := 1 },
                { account := "bob", weight := 3, locked_tokens := 1 }],
    proposals := [] }

/-- C5: the claim fails on the code.  `recompute_percentage` on `dC5`
returns the state unchanged — the loop mutates deserialized copies, so
the stored weights still sum to 10, not 1 — and even the values the loop
computes and discards are `1 / 2 = 0` each by integer truncation,
summing to 0 with a non-zero total stake. -/
theorem c5_recompute_leaves_weights_unchanged :
    DAO.recompute_percentage dC5 = Except.ok dC5 ∧
    (dC5.council.map Council.weight).sum = 10 ∧
    (dC5.recomputed_weights.map Council.weight).sum = 0 := by
  refine ⟨rfl, rfl, rfl⟩

/-! ### C6: failed calls leave the state untouched -/

/-- C6: a call that fails with an error leaves the Council Registry and
the Proposal Store (vote ledgers included) exactly as before the call —
the panic aborts the NEAR transaction, so no partial write of `vote`,
`add_proposal` or `finalized` is ever visible. -/
theorem c6_failed_calls_leave_state (d : DAO) (id : Nat) (v : Vote)
    (acct target proposer : AccountId) (descr : String) (kind : ProposalType)
    (deposit now : Nat) (e1 e2 e3 : DaoError) :
    (d.vote id v acct now = Except.error e1 →
      postState d (d.vote id v acct now) = d) ∧
    (d.add_proposal target descr kind proposer deposit now = Except.error e2 →
      postState d (d.add_proposal target descr kind proposer deposit now) = d) ∧
    (d.finalized id now = Except.error e3 →
      postState d (d.finalized id now) = d) := by
  refine ⟨fun h => by rw [h]; rfl, fun h => by rw [h]; rfl, fun h => by rw [h]; rfl⟩

/-- Input for the C6 witness: no council, no proposals, bond 1, so all
three operations fail. -/
def dW6 : DAO :=
  { purpose := "", bond := 1, vote_period := 10, grace_period := 0,
    council := [], proposals := [] }

/-- C6 witness: at `dW6` a vote by a non-member, an under-bonded
`add_proposal` and a `finalized` on a missing index all fail and leave
the state equal to `dW6`. -/
theorem c6_witness :
    postState dW6 (DAO.vote dW6 0 Vote.Yes "mallory" 0) = dW6 ∧
    postState dW6
      (DAO.add_proposal dW6 "bob" "" ProposalType.DeleteCouncil "alice" 0 0) = dW6 ∧
    postState dW6 (DAO.finalized dW6 0 0) = dW6 :=
  have h := c6_failed_calls_leave_state dW6 0 Vote.Yes "mallory" "bob" "alice"
    "" ProposalType.DeleteCouncil 0 0 DaoError.notCouncilMember
    DaoError.insufficientBond DaoError.noSuchProposal
  ⟨h.1 rfl, h.2.1 rfl, h.2.2 rfl⟩

/-! ### C8: votes by non-members are rejected -/

/-- C8: for an identity that is not in the Council Registry, `vote` fails
with `NotCouncilMember` on every proposal id, and the visible state — in
particular every proposal's vote ledger — is unchanged. -/
theorem c8_non_council_vote_rejected (d : DAO) (id : Nat) (v : Vote)
    (acct : AccountId) (now : Nat)
    (habs : ∀ c ∈ d.council, c.account ≠ acct) :
    d.vote id v acct now = Except.error DaoError.notCouncilMember ∧
    postState d (d.vote id v acct now) = d := by
  have hf : d.council.filter (fun item => item.account == acct) = [] := by
    rw [List.filter_eq_nil_iff]
    intro c hc
    simpa using habs c hc
  have h1 : d.vote id v acct now = Except.error DaoError.notCouncilMember := by
    unfold DAO.vote
    rw [hf]
  exact ⟨h1, by rw [h1]; rfl⟩

/-- Input for the C8 witness: Alice is the only council member; there is
one open proposal. -/
def dW8 : DAO :=
  { purpose := "", bond := 1, vote_period := 10, grace_period := 0,
    council := [{ account := "alice", weight := 60, locked_tokens := 60 }],
    proposals := [{ status := ProposalStatus.Vote, proposer := "alice",
                    receiver := "bob", description := "", kind := ProposalType.Payout 5,
                    vote_period_end := 100, votes := [] }] }

/-- C8 witness: Mallory, not a member of `dW8`'s council, fails to vote
and the state is untouched. -/
theorem c8_witness :
    DAO.vote dW8 0 Vote.Yes "mallory" 0 =
      Except.error DaoError.notCouncilMember ∧
    postState dW8 (DAO.vote dW8 0 Vote.Yes "mallory" 0) = dW8 :=
  c8_non_council_vote_rejected dW8 0 Vote.Yes "mallory" 0 (by decide)

/-! ### C7: double voting is rejected -/

/-- C7: when a council member already has a ballot on an open proposal
(deadline not yet passed) — exactly one ballot, as the ledger is keyed
by member — a second `vote` call by that member fails with
`DuplicateVote`, and the ledger visible afterwards still holds exactly
one ballot for that member. -/
theorem c7_duplicate_vote_rejected (d : DAO) (id : Nat) (v : Vote)
    (acct : AccountId) (now : Nat) (p : Proposal)
    (hmem : ∃ c ∈ d.council, c.account = acct)
    (hp : d.proposals[id]? = some p)
    (hst : p.status = ProposalStatus.Vote)
    (hdl : ¬ p.vote_period_end < now)
    (hvoted : ((p.votes.map Prod.fst).filter
        (fun k => k.account == acct)).length = 1) :
    d.vote id v acct now = Except.error DaoError.duplicateVote ∧
    ((((postState d (d.vote id v acct now)).proposals[id]?.getD p).votes.map
        Prod.fst).filter (fun k => k.account == acct)).length = 1 := by
  obtain ⟨c, hc, hca⟩ := hmem
  have hcf : c ∈ d.council.filter (fun item => item.account == acct) :=
    List.mem_filter.mpr ⟨hc, by simp [hca]⟩
  have h1 : d.vote id v acct now = Except.error DaoError.duplicateVote := by
    cases hfe : d.council.filter (fun item => item.account == acct) with
    | nil => rw [hfe] at hcf; exact absurd hcf (List.not_mem_nil c)
    | cons c0 rest =>
      unfold DAO.vote
      rw [hfe, hp]
      simp only [hst, hvoted, if_pos rfl, if_neg hdl]
      simp
  refine ⟨h1, ?_⟩
  rw [h1]
  simpa [postState, hp] using hvoted

/-- The open proposal of the C7 witness: Alice (weight 10) has already
voted `Yes`; the tally (10 < 50) keeps the status `Vote`. -/
def pW7 : Proposal :=
  { status := ProposalStatus.Vote, proposer := "carol", receiver := "dave",
    description := "", kind := ProposalType.Payout 5, vote_period_end := 100,
    votes := [({ account := "alice", weight := 10, locked_tokens := 10 }, Vote.Yes)] }

/-- Input for the C7 witness. -/
def dW7 : DAO :=
  { purpose := "", bond := 1, vote_period := 100, grace_period := 0,
    council := [{ account := "alice", weight := 10, locked_tokens := 10 }],
    proposals := [pW7] }

/-- C7 witness: Alice's second ballot on `pW7` at `now = 0` is rejected
with `DuplicateVote` and her single recorded ballot survives. -/
theorem c7_witness :
    DAO.vote dW7 0 Vote.No "alice" 0 = Except.error DaoError.duplicateVote ∧
    ((((postState dW7 (DAO.vote dW7 0 Vote.No "alice" 0)).proposals[0]?.getD
        pW7).votes.map Prod.fst).filter (fun k => k.account == "alice")).length
      = 1 :=
  c7_duplicate_vote_rejected dW7 0 Vote.No "alice" 0 pW7
    (by decide) (by decide) (by decide) (by decide) (by decide)

/-! ### C9: `add_proposal` -/

/-- C9: with an attached deposit of at least the configured bond,
`add_proposal` appends a fresh proposal — initial status `Vote`, deadline
`now + vote_period`, empty ledger — and returns its index, the length of
the store before the append; with a deposit below the bond it fails with
`InsufficientBond`. -/
theorem c9_add_proposal_appends (d : DAO) (target : AccountId)
    (descr : String) (kind : ProposalType) (proposer : AccountId)
    (deposit now : Nat) :
    (deposit ≥ d.bond →
      d.add_proposal target descr kind proposer deposit now =
        Except.ok
          ({ d with proposals := d.proposals ++
              [{ status := ProposalStatus.Vote, proposer := proposer,
                 receiver := target, description := descr, kind := kind,
                 vote_period_end := now + d.vote_period, votes := [] }] },
           d.proposals.length)) ∧
    (deposit < d.bond →
      d.add_proposal target descr kind proposer deposit now =
        Except.error DaoError.insufficientBond) := by
  constructor
  · intro h
    unfold DAO.add_proposal
    rw [if_pos h]
    simp
  · intro h
    unfold DAO.add_proposal
    rw [if_neg (by omega)]

/-- C9 witness: on `dW8` (bond 1), a deposit of 3 at `now = 7` appends the
proposal at index 1, and a deposit of 0 is rejected. -/
theorem c9_witness :
    DAO.add_proposal dW8 "erin" "d" (ProposalType.NewCouncil 30) "alice" 3 7 =
      Except.ok
        ({ dW8 with proposals := dW8.proposals ++
            [{ status := ProposalStatus.Vote, proposer := "alice",
               receiver := "erin", description := "d",
               kind := ProposalType.NewCouncil 30,
               vote_period_end := 7 + dW8.vote_period, votes := [] }] },
         dW8.proposals.length) ∧
    DAO.add_proposal dW8 "erin" "d" (ProposalType.NewCouncil 30) "alice" 0 7 =
      Except.error DaoError.insufficientBond :=
  ⟨(c9_add_proposal_appends dW8 "erin" "d" (ProposalType.NewCouncil 30)
      "alice" 3 7).1 (by decide),
   (c9_add_proposal_appends dW8 "erin" "d" (ProposalType.NewCouncil 30)
      "alice" 0 7).2 (by decide)⟩

/-! ### C10: the constructor -/

/-- C10: when no contract state exists yet, `DAO::new` seeds the council
with exactly one member — the calling account, weight 0, locked stake
equal to the attached deposit — and an empty proposal store; when state
already exists, construction fails. -/
theorem c10_constructor_seeds_caller (purpose : String)
    (bond vote_period grace_period : Nat) (predecessor : AccountId)
    (attached_deposit : Nat) :
    DAO.new purpose bond vote_period grace_period predecessor
        attached_deposit false =
      Except.ok
        { purpose := purpose, bond := bond, vote_period := vote_period,
          grace_period := grace_period,
          council := [{ account := predecessor, weight := 0,
                        locked_tokens := attached_deposit }],
          proposals := [] } ∧
    DAO.new purpose bond vote_period grace_period predecessor
        attached_deposit true =
      Except.error DaoError.alreadyInitialized := by
  refine ⟨?_, rfl⟩
  unfold DAO.new insertSet
  simp
